import Mathlib

/-!
Verification of the charlie-2.0 agriculture RAG chatbot.

Shallow embedding of the Python sources (src/agent.py, src/rag.py,
src/database.py, src/chat_history.py, src/config.py) into Lean 4.

Conventions used throughout:
* Python strings are Lean `String`; dictionaries with a fixed key set are
  Lean structures; a dict key that may be absent is an `Option` field.
* External collaborators (language model, embedding provider, SQL server,
  Firestore) are passed in as explicit oracle functions or explicit state,
  and the number of calls made to them is returned alongside the result
  where a claim is about "no provider calls".
* Python `str.lower` / `str.strip` are re-implemented on `List Char`
  (ASCII semantics) because the core `String.toLower` / `String.trim` do
  not reduce in the kernel.
-/

/-- Python `str.lower()` (ASCII case folding, which covers every string the
program manipulates: SQL keywords, table names, the word "livestock"). -/
def pyLower (s : String) : String := String.mk (s.data.map Char.toLower)

/-- Python `str.strip()`: drop leading and trailing whitespace. -/
def pyStrip (s : String) : String :=
  String.mk (((s.data.dropWhile Char.isWhitespace).reverse.dropWhile Char.isWhitespace).reverse)

/-- Python `sep.join(parts)`. -/
def pyJoin (sep : String) : List String → String
  | [] => ""
  | [s] => s
  | s :: rest => s ++ sep ++ pyJoin sep rest

/-- Boolean test that `needle` starts `hay` (helper for substring search). -/
def startsWithL : List Char → List Char → Bool
  | [], _ => true
  | _ :: _, [] => false
  | a :: as, b :: bs => a == b && startsWithL as bs

/-- Helper for `strContains`: does `needle` occur in `hay` at some position? -/
def occursAux (needle : List Char) : List Char → Bool
  | [] => startsWithL needle []
  | c :: rest => startsWithL needle (c :: rest) || occursAux needle rest

/-- Python's `needle in hay` substring test. -/
def strContains (hay needle : String) : Bool := occursAux needle.data hay.data

/-! ## Conversation Store (src/chat_history.py)

Firestore is modelled as an association list from document id to document.
`ChatHistoryStore` has no state of its own beyond the lazily created client,
so each method is a function of the store contents. -/

/-- A chat message dictionary: `role`, `content`, and an optional
`timestamp` key (absent on messages coming from the agent, present on
messages that have been persisted). -/
structure PMsg where
  role : String
  content : String
  timestamp : Option String
deriving DecidableEq, Repr

/-- A Firestore thread document, as written by `save_messages`. The
`created_at`/`updated_at` datetimes are modelled as opaque strings. -/
structure ThreadDoc where
  user_id : String
  thread_id : String
  messages : List PMsg
  created_at : String
  updated_at : String
  message_count : Nat
deriving DecidableEq, Repr

/-- The chat-history collection: document id ↦ thread document. -/
abbrev ChatStore : Type := List (String × ThreadDoc)

/-- `ChatHistoryStore._get_doc_id`. -/
def _get_doc_id (user_id thread_id : String) : String := user_id ++ "_" ++ thread_id

/-- Firestore document lookup by id in a collection modelled as an
association list. -/
def findDoc (store : List (String × ThreadDoc)) (did : String) : Option (String × ThreadDoc) :=
  store.find? (fun kv => kv.fst == did)

/-- `ChatHistoryStore.get_messages`: load the thread document; if it exists
return its messages with the timestamps stripped ("for agent
compatibility"), else return `[]`. -/
def get_messages (store : ChatStore) (user_id thread_id : String) : List PMsg :=
  match findDoc store (_get_doc_id user_id thread_id) with
  | some kv => kv.snd.messages.map (fun m => ⟨m.role, m.content, none⟩)
  | none => []

/-- The timestamping loop of `save_messages`: give every message a
timestamp, keeping an existing one and defaulting to `now` otherwise. -/
def timestampMessages (messages : List PMsg) (now : String) : List PMsg :=
  messages.map (fun m => ⟨m.role, m.content, some (m.timestamp.getD now)⟩)

/-- The `doc_ref.update({messages, updated_at, message_count})` dictionary
of `save_messages`, applied to a stored document: exactly those three
fields are rewritten; `user_id`, `thread_id` and `created_at` are left as
stored. -/
def updateThreadDoc (messages : List PMsg) (now : String) (d : ThreadDoc) : ThreadDoc :=
  ⟨d.user_id, d.thread_id, timestampMessages messages now,
   d.created_at, now, (timestampMessages messages now).length⟩

/-- `ChatHistoryStore.save_messages`: timestamp the messages, then either
update the existing document (only `messages`, `updated_at`,
`message_count`) or create a fresh document with all six fields. -/
def save_messages (store : ChatStore) (user_id thread_id : String)
    (messages : List PMsg) (now : String) : ChatStore :=
  let did := _get_doc_id user_id thread_id
  match findDoc store did with
  | some _ =>
      store.map (fun e =>
        if e.fst == did then (e.fst, updateThreadDoc messages now e.snd) else e)
  | none =>
      store ++ [(did, ⟨user_id, thread_id, timestampMessages messages now, now, now,
                       (timestampMessages messages now).length⟩)]

/-- `ChatHistoryStore.delete_thread`: if the document exists, delete it and
return `true`, else return `false`. The function is total: the
nonexistent case is an ordinary `false` result, never an error. -/
def delete_thread (store : ChatStore) (user_id thread_id : String) : Bool × ChatStore :=
  let did := _get_doc_id user_id thread_id
  if (findDoc store did).isSome then
    (true, store.filter (fun kv => !(kv.fst == did)))
  else
    (false, store)

/-! ## Agent (src/agent.py)

The language model is an oracle `llm : String → String` (prompt to
completion text). Functions that may call it also return the number of
calls they made, so that "no provider call" claims are statable. -/

/-- An agent-level message dictionary (`role`, `content`), as produced by
the generation nodes and consumed by the prompt builder. -/
structure AMsg where
  role : String
  content : String
deriving DecidableEq, Repr

/-- `CLASSIFICATION_PROMPT.format(question=...)` from src/agent.py: the
fixed instructional prompt with the user question spliced in. -/
def classificationPromptFor (question : String) : String :=
  "Classify if the following user question is related to livestock, agriculture, animal breeds, or farming.\n\nLivestock-related topics include:\n- Animal breeds (cattle, sheep, goats, pigs, poultry, horses, etc.)\n- Species information, characteristics, terminology\n- Colors, patterns, categories of animals\n- Farming, breeding, animal husbandry\n- Agricultural practices related to animals\n\nRespond with ONLY one word: \"livestock\" if related, or \"general\" if not related.\n\nUser question: " ++ question ++ "\n\nClassification:"

/-- `SYSTEM_PROMPT` from src/agent.py (livestock-advisor persona). -/
def SYSTEM_PROMPT : String :=
  "You are an expert livestock advisor with access to a comprehensive database of animal breeds, species, colors, patterns, and categories.\n\nYour knowledge includes:\n- Detailed information about various livestock species (cattle, sheep, goats, pigs, poultry, horses, etc.)\n- Breed characteristics, purposes (meat, milk, wool, eggs, working), and descriptions\n- Available colors and patterns for each species\n- Terminology (male/female terms, baby terms, etc.)\n\nGuidelines:\n1. Use the provided context from the database to answer questions accurately\n2. Be helpful and informative about livestock breeds and species\n3. If asked about something not in the context, say so honestly\n4. Format responses clearly with bullet points or numbered lists when appropriate\n5. Be conversational but professional\n\nIf the user asks about:\n- Breeds: Provide breed names, species, purpose, and descriptions\n- Species: Provide terminology, characteristics, and available breeds\n- Colors/Patterns: List available options for the species\n- General questions: Use your knowledge plus the database context\n"

/-- `GENERAL_PROMPT` from src/agent.py (generic-assistant persona). -/
def GENERAL_PROMPT : String :=
  "You are a helpful, friendly assistant. Answer the user's question to the best of your ability.\nBe conversational but concise. If you don't know something, say so honestly.\n"

/-- Result of a `classify_query` run: the state update (`query_type`) and
the number of completion calls it issued. -/
structure ClassifyResult where
  query_type : String
  llmCalls : Nat
deriving DecidableEq, Repr

/-- `classify_query` from src/agent.py. `state.get("user_input", "")` with
a missing key and a present-but-empty value are both the empty string
(Python tests `if not user_input`). On non-empty input it makes one
completion call, strips and lower-cases the reply, and answers
`"livestock"` exactly when the reply contains that substring. -/
def classify_query (llm : String → String) (user_input : String) : ClassifyResult :=
  if user_input == "" then
    ⟨"general", 0⟩
  else
    let classification := pyLower (pyStrip (llm (classificationPromptFor user_input)))
    if strContains classification "livestock" then
      ⟨"livestock", 1⟩
    else
      ⟨"general", 1⟩

/-- `route_query` from src/agent.py. -/
def route_query (query_type : String) : String :=
  if query_type == "livestock" then "retrieve" else "generate_direct"

/-- The "last 10 messages" slice `messages[-10:]` used by both generation
nodes. -/
def lastTen (messages : List AMsg) : List AMsg :=
  messages.drop (messages.length - 10)

/-- The history-rendering loop shared by both generation nodes: each
message becomes a `"User: ..."` or `"Assistant: ..."` line. -/
def renderHistory (messages : List AMsg) : List String :=
  messages.map (fun m =>
    (if m.role == "user" then "User" else "Assistant") ++ ": " ++ m.content)

/-- Result of a generation node: the state update (`response` and the new
`messages` list). -/
structure GenResult where
  response : String
  messages : List AMsg
deriving DecidableEq, Repr

/-- `generate_response` from src/agent.py (the RAG path): build the prompt
from the system prompt, the optional context block, the last ten history
turns and the current input; call the model; append the user turn and the
assistant turn to the history. -/
def generate_response (llm : String → String) (messages : List AMsg)
    (user_input context : String) : GenResult :=
  let prompt_parts :=
    [SYSTEM_PROMPT]
    ++ (if context == "" then []
        else ["\n--- DATABASE CONTEXT ---\n" ++ context ++ "\n--- END CONTEXT ---\n"])
    ++ (if messages.isEmpty then []
        else "\nRecent conversation:" :: renderHistory (lastTen messages))
    ++ ["\nUser: " ++ user_input ++ "\n\nAssistant:"]
  let full_prompt := pyJoin "\n" prompt_parts
  let response_text := llm full_prompt
  ⟨response_text, messages ++ [⟨"user", user_input⟩, ⟨"assistant", response_text⟩]⟩

/-- `generate_direct` from src/agent.py (the no-retrieval path): same
shape as `generate_response` but with the generic prompt and no context
block. -/
def generate_direct (llm : String → String) (messages : List AMsg)
    (user_input : String) : GenResult :=
  let prompt_parts :=
    [GENERAL_PROMPT]
    ++ (if messages.isEmpty then []
        else "\nRecent conversation:" :: renderHistory (lastTen messages))
    ++ ["\nUser: " ++ user_input ++ "\n\nAssistant:"]
  let full_prompt := pyJoin "\n" prompt_parts
  let response_text := llm full_prompt
  ⟨response_text, messages ++ [⟨"user", user_input⟩, ⟨"assistant", response_text⟩]⟩

/-! ## The chat entry point (src/agent.py line 231, src/api.py line 680)

`def chat(user_input: str, thread_id: str = "default") -> str` has exactly
two parameters and its body consults only the in-process LangGraph
checkpointer (`agent.get_state(config)` / `agent.invoke(..., config)`,
backed by `MemorySaver`): it never calls `chat_store.get_messages` or
`chat_store.save_messages`. The HTTP layer nevertheless invokes it as
`chat(request.message, request.thread_id, request.user_id)` with three
positional arguments, and the repository's own test
`test_chat_function_signature` asserts that `user_id` is among the
parameters. These interface-level facts are recorded as data. -/

/-- The parameter names of `chat` as defined in src/agent.py. -/
def chatParamNames : List String := ["user_input", "thread_id"]

/-- The positional arguments src/api.py's `chat_endpoint` passes to
`chat`. -/
def chatEndpointArgs : List String :=
  ["request.message", "request.thread_id", "request.user_id"]

/-- The parameter names the repository's test
`test_chat_function_signature` (src/tests/test_agent.py) requires to be
present in `chat`'s signature. -/
def chatTestRequiredParams : List String := ["user_input", "thread_id", "user_id"]

/-- The qualified names `chat`'s body calls to read and write conversation
history (src/agent.py lines 242-254): only the LangGraph checkpointer. -/
def chatHistoryCalls : List String := ["agent.get_state", "agent.invoke"]

/-! ## RAG system (src/rag.py)

The Firestore vector collection is an association list from document id to
document; the embedding provider is abstract (only the number of
`embed_documents` batch calls is observable, which is what the idempotence
claim is about). -/

/-- `TOP_K_RESULTS` from src/config.py. -/
def TOP_K_RESULTS : Nat := 10

/-- A document prepared for indexing (`id`, `content`, `type`). The
embedding vector attached at write time is value-irrelevant to every claim
and is not modelled; `metadata` is likewise elided. -/
structure IDoc where
  id : String
  content : String
  typ : String
deriving DecidableEq, Repr

/-- The `livestock_knowledge` collection: document id ↦ stored document. -/
abbrev IndexStore : Type := List (String × IDoc)

/-- Firestore `document(id).set(...)` inside a batch: create the document
or overwrite the one with the same id. -/
def setDoc (store : IndexStore) (d : IDoc) : IndexStore :=
  if (store.find? (fun kv => kv.fst == d.id)).isSome then
    store.map (fun kv => if kv.fst == d.id then (d.id, d) else kv)
  else
    store ++ [(d.id, d)]

/-- Result of `index_database`: the returned count, the collection
contents afterwards, and how many embedding-provider batch calls
(`embed_documents`) were made. -/
structure IndexResult where
  ret : Int
  store : IndexStore
  embedCalls : Nat
deriving DecidableEq, Repr

/-- `RAGSystem.index_database` from src/rag.py, with the relational
extraction (`db.get_all_breeds` / `db.get_all_species` plus per-species
colour/pattern/category lookups, formatted by the `_format_*` functions
below) abstracted as the prepared `documents` list, and the
`_get_document_count` aggregation call abstracted by `countOk` (`false`
models its exception branch, which returns the sentinel `-1`).

* not forced and `_check_if_indexed()` (collection non-empty): return
  `max(count, 0)` without touching the embedding provider;
* otherwise: clear the collection if forced, return 0 when there are no
  documents, else embed in batches of 20 (one provider call per batch) and
  batch-write every document by id. -/
def index_database (force_rebuild : Bool) (countOk : Bool)
    (documents : List IDoc) (store : IndexStore) : IndexResult :=
  if !force_rebuild && !store.isEmpty then
    let count : Int := if countOk then (store.length : Int) else -1
    ⟨max count 0, store, 0⟩
  else
    let store1 : IndexStore := if force_rebuild then [] else store
    if documents.isEmpty then
      ⟨0, store1, 0⟩
    else
      ⟨(documents.length : Int),
       documents.foldl (fun s d => setDoc s d) store1,
       (documents.length + 19) / 20⟩

/-- A search hit as formatted by `RAGSystem.search` (`relevance_score` is
the constant `1.0` and is elided; `metadata` likewise). -/
structure SearchResult where
  content : String
  typ : String
deriving DecidableEq, Repr

/-- The result-formatting loop of `get_context_for_query`
(`for i, result in enumerate(results, 1)`): three parts per result — the
numbered content line, the indented type line, and a blank separator. -/
def contextParts : Nat → List SearchResult → List String
  | _, [] => []
  | i, r :: rs =>
      (toString i ++ ". " ++ r.content)
        :: ("   (Type: " ++ r.typ ++ ")")
        :: ""
        :: contextParts (i + 1) rs

/-- `RAGSystem.get_context_for_query` from src/rag.py: one `search` call
with the default `TOP_K_RESULTS`, the fixed sentinel when it returns
nothing, otherwise the header line plus the numbered list, joined with
newlines. The second component counts the `search` calls made (always
one). `search` itself is the oracle: its embedding call and Firestore
nearest-neighbour query are external. -/
def get_context_for_query (search : String → Nat → List SearchResult)
    (query : String) : String × Nat :=
  let results := search query TOP_K_RESULTS
  if results.isEmpty then
    ("No relevant information found in the database.", 1)
  else
    (pyJoin "\n" ("Relevant information from the livestock database:\n" :: contextParts 1 results), 1)

/-- `retrieve_context` from src/agent.py: empty input short-circuits to an
empty context without consulting the RAG system; otherwise delegate to
`get_context_for_query`. Second component counts `search` calls. -/
def retrieve_context (search : String → Nat → List SearchResult)
    (user_input : String) : String × Nat :=
  if user_input == "" then ("", 0)
  else get_context_for_query search user_input

/-- A row of `Speciesavailable` as consumed by
`_format_species_document`. Fields reached through `.get(...)` are
`Option`s; the document builder re-checks Python truthiness (`None` and
`""`/`0` are all falsy). -/
structure SpeciesRow where
  species : Option String
  singularTerm : Option String
  pluralTerm : Option String
  maleTerm : Option String
  femaleTerm : Option String
  babyTerm : Option String
  gestationPeriod : Option Int
deriving DecidableEq, Repr

/-- One `if species.get(key): parts.append(label + value)` step of
`_format_species_document`: contribute the labelled part only for a
present, truthy (non-empty) string. -/
def optStrPart (label : String) : Option String → List String
  | none => []
  | some s => if s == "" then [] else [label ++ s]

/-- `RAGSystem._format_species_document` from src/rag.py: the species
header (with `"Unknown"` default), the optional terminology and gestation
parts, and the colour/pattern/category lists truncated to the first
20/20/15 entries, all joined with `" | "`. -/
def _format_species_document (species : SpeciesRow)
    (colors patterns categories : List String) : String :=
  let parts :=
    ["Species: " ++ species.species.getD "Unknown"]
    ++ optStrPart "Singular: " species.singularTerm
    ++ optStrPart "Plural: " species.pluralTerm
    ++ optStrPart "Male term: " species.maleTerm
    ++ optStrPart "Female term: " species.femaleTerm
    ++ optStrPart "Baby term: " species.babyTerm
    ++ (match species.gestationPeriod with
        | none => []
        | some n => if n == 0 then [] else ["Gestation period: " ++ toString n ++ " days"])
    ++ (if colors.isEmpty then []
        else ["Available colors: " ++ pyJoin ", " (colors.take 20)])
    ++ (if patterns.isEmpty then []
        else ["Available patterns: " ++ pyJoin ", " (patterns.take 20)])
    ++ (if categories.isEmpty then []
        else ["Categories: " ++ pyJoin ", " (categories.take 15)])
  pyJoin " | " parts

/-! ## Database access layer (src/database.py)

`_validate_query` lower-cases the query and collects, with
`re.findall`, every table name matched by `from\s+\[?(\w+)\]?` and
`join\s+\[?(\w+)\]?`; any hit outside the allow-list raises
`PermissionError` before the cursor ever executes the query. The two
regexes are embedded as a hand-rolled scanner over the character list
(`\w` and `\s` are modelled with their ASCII meaning, which covers SQL
text). -/

/-- `ALLOWED_TABLES` from src/config.py. -/
def ALLOWED_TABLES : List String :=
  ["Speciesavailable",
   "Speciesbreedlookuptable",
   "Speciescategory",
   "Speciescolorlookuptable",
   "Speciespatternlookuptable",
   "Speciesregistrationtypelookuptable"]

/-- `Database._allowed_tables`: the allow-list lower-cased once at
construction. -/
def allowedTablesLower : List String := ALLOWED_TABLES.map pyLower

/-- A regex `\w` character (ASCII): letter, digit or underscore. -/
def isWordChar (c : Char) : Bool := c.isAlphanum || c == '_'

/-- Match an explicit character sequence at the head of the input,
returning the remainder. -/
def matchChars : List Char → List Char → Option (List Char)
  | [], cs => some cs
  | _ :: _, [] => none
  | k :: ks, c :: cs => if c == k then matchChars ks cs else none

/-- Try to match `kw`, then `\s+`, then `\[?(\w+)\]?` at the head of
`cs`; on success return the captured table name and the input remaining
after the whole match. Greedy matching never needs to backtrack here
because whitespace, `[` and word characters are disjoint character
classes. -/
def matchTableRef (kw : List Char) (cs : List Char) : Option (String × List Char) :=
  match matchChars kw cs with
  | none => none
  | some rest1 =>
    match rest1 with
    | [] => none
    | c :: _ =>
      if c.isWhitespace then
        let rest2 := rest1.dropWhile Char.isWhitespace
        let rest3 := match rest2 with
          | '[' :: r => r
          | r => r
        let word := rest3.takeWhile isWordChar
        if word.isEmpty then none
        else
          let rest4 := rest3.dropWhile isWordChar
          let rest5 := match rest4 with
            | ']' :: r => r
            | r => r
          some (String.mk word, rest5)
      else none

/-- `re.findall` for one of the two table patterns: scan left to right,
collecting non-overlapping matches and resuming after each match. `fuel`
bounds the recursion; it is initialised to the input length, which
suffices because every step consumes at least one character. -/
def scanTables (kw : List Char) : Nat → List Char → List String
  | 0, _ => []
  | _ + 1, [] => []
  | fuel + 1, c :: cs =>
    match matchTableRef kw (c :: cs) with
    | some (tbl, rest) => tbl :: scanTables kw fuel rest
    | none => scanTables kw fuel cs

/-- The table names referenced by the query's FROM and JOIN clauses, in
the order `_validate_query` collects them: all FROM matches first, then
all JOIN matches, over the lower-cased query. -/
def extractTables (query : String) : List String :=
  let ql := (pyLower query).data
  scanTables "from".data ql.length ql ++ scanTables "join".data ql.length ql

/-- `Database._validate_query`: the first referenced table outside the
allow-list, if any — the Python loop raises
`PermissionError("Access denied to table: ...")` at exactly that
table. `none` means validation passes. -/
def _validate_query (query : String) : Option String :=
  (extractTables query).find? (fun t => !(allowedTablesLower.contains t))

/-- `Database.execute`: validate first; on failure return the
`PermissionError` without touching the connection, otherwise run the query
on the SQL server (the oracle `runSql`). The second component counts the
calls made to the data source. -/
def execute {α : Type} (runSql : String → α) (query : String) :
    Except String α × Nat :=
  match _validate_query query with
  | some t => (Except.error ("Access denied to table: " ++ t), 0)
  | none => (Except.ok (runSql query), 1)

/-! ## Specification-side formatting (for the retrieval-context claim)

The claim describes the non-empty-result output of the context builder as
a header line followed by a numbered list; `entriesText` is that
description written directly as a recursive string builder, to be proved
equal to what the code's parts-list-plus-join construction produces. -/

/-- The numbered result list as the specification describes it: each
result contributes `"{i}. {content}"`, an indented `"   (Type: {type})"`
line and a blank separator line. -/
def entriesText : Nat → List SearchResult → String
  | _, [] => ""
  | i, [r] =>
      toString i ++ ". " ++ r.content ++ "\n" ++ "   (Type: " ++ r.typ ++ ")" ++ "\n"
  | i, r :: r2 :: rs =>
      toString i ++ ". " ++ r.content ++ "\n" ++ "   (Type: " ++ r.typ ++ ")" ++ "\n" ++ "\n"
        ++ entriesText (i + 1) (r2 :: rs)

/-! ## Helper lemmas -/

theorem find?_filter_self_none (l : List (String × ThreadDoc)) (did : String) :
    (l.filter (fun kv => !(kv.fst == did))).find? (fun kv => kv.fst == did) = none := by
  rw [List.find?_eq_none]
  intro x hx
  have hmem := List.mem_filter.mp hx
  simpa using hmem.2

theorem find?_append_of_none {α : Type} {p : α → Bool} {l1 : List α} (l2 : List α)
    (h : l1.find? p = none) : (l1 ++ l2).find? p = l2.find? p := by
  rw [List.find?_append, h, Option.none_or]

theorem find?_map_update (l : List (String × ThreadDoc)) (did : String)
    (f : ThreadDoc → ThreadDoc) (kv : String × ThreadDoc)
    (h : l.find? (fun e => e.fst == did) = some kv) :
    (l.map (fun e => if e.fst == did then (e.fst, f e.snd) else e)).find?
        (fun e => e.fst == did) = some (kv.fst, f kv.snd) := by
  induction l with
  | nil => simp at h
  | cons hd tl ih =>
    cases hc : hd.fst == did with
    | true =>
      have hkv : hd = kv := by simpa [List.find?, hc] using h
      subst hkv
      simp [List.find?, List.map_cons, hc]
    | false =>
      have h' : tl.find? (fun e => e.fst == did) = some kv := by
        simpa [List.find?, hc] using h
      simpa [List.find?, List.map_cons, hc] using ih h'

theorem findDoc_filter_self_none (l : List (String × ThreadDoc)) (did : String) :
    findDoc (l.filter (fun kv => !(kv.fst == did))) did = none :=
  find?_filter_self_none l did

theorem findDoc_map_update (l : List (String × ThreadDoc)) (did : String)
    (f : ThreadDoc → ThreadDoc) (kv : String × ThreadDoc)
    (h : findDoc l did = some kv) :
    findDoc (l.map (fun e => if e.fst == did then (e.fst, f e.snd) else e)) did
      = some (kv.fst, f kv.snd) :=
  find?_map_update l did f kv h

theorem findDoc_append_of_none (l l' : List (String × ThreadDoc)) (did : String)
    (h : findDoc l did = none) : findDoc (l ++ l') did = findDoc l' did :=
  find?_append_of_none l' h

theorem save_messages_of_not_found (store : ChatStore) (u t : String)
    (msgs : List PMsg) (now : String) (hf : findDoc store (_get_doc_id u t) = none) :
    save_messages store u t msgs now
      = store ++ [(_get_doc_id u t, ⟨u, t, timestampMessages msgs now, now, now,
                                     (timestampMessages msgs now).length⟩)] := by
  simp only [save_messages]
  rw [hf]

theorem save_messages_of_found (store : ChatStore) (u t : String)
    (msgs : List PMsg) (now : String) (kv : String × ThreadDoc)
    (hf : findDoc store (_get_doc_id u t) = some kv) :
    save_messages store u t msgs now
      = store.map (fun e =>
          if e.fst == _get_doc_id u t then (e.fst, updateThreadDoc msgs now e.snd) else e) := by
  simp only [save_messages]
  rw [hf]

theorem setDoc_of_not_found (store : IndexStore) (d : IDoc)
    (h : store.find? (fun kv => kv.fst == d.id) = none) :
    setDoc store d = store ++ [(d.id, d)] := by
  simp [setDoc, h]

theorem foldl_setDoc_length (docs : List IDoc) :
    ∀ store : IndexStore, (docs.map (fun d => d.id)).Nodup →
      (∀ d ∈ docs, store.find? (fun kv => kv.fst == d.id) = none) →
      (docs.foldl (fun s d => setDoc s d) store).length = store.length + docs.length := by
  induction docs with
  | nil => intro store _ _; simp
  | cons d ds ih =>
    intro store hnd hnone
    have hstep : setDoc store d = store ++ [(d.id, d)] :=
      setDoc_of_not_found store d (hnone d (List.mem_cons_self d ds))
    have hnd' : (ds.map (fun d => d.id)).Nodup := (List.nodup_cons.mp (by simpa using hnd)).2
    have hdid : d.id ∉ ds.map (fun d => d.id) := (List.nodup_cons.mp (by simpa using hnd)).1
    have hnone' : ∀ d' ∈ ds, (store ++ [(d.id, d)]).find? (fun kv => kv.fst == d'.id) = none := by
      intro d' hd'
      rw [find?_append_of_none _ (hnone d' (List.mem_cons_of_mem d hd'))]
      have hne : d.id ≠ d'.id := by
        intro hEq
        exact hdid (hEq ▸ List.mem_map_of_mem (fun d => d.id) hd')
      simp [hne]
    calc ((d :: ds).foldl (fun s d => setDoc s d) store).length
        = (ds.foldl (fun s d => setDoc s d) (store ++ [(d.id, d)])).length := by
          simp [List.foldl_cons, hstep]
      _ = (store ++ [(d.id, d)]).length + ds.length := ih _ hnd' hnone'
      _ = store.length + (ds.length + 1) := by simp [List.length_append]; omega

theorem pyJoin_cons_ne (sep a : String) (l : List String) (h : l ≠ []) :
    pyJoin sep (a :: l) = a ++ sep ++ pyJoin sep l := by
  cases l with
  | nil => exact absurd rfl h
  | cons b bs => rfl

theorem nlType_merge (s : String) : "\n" ++ ("   (Type: " ++ s) = "\n   (Type: " ++ s := by
  rw [← String.append_assoc]
  exact congrArg (fun x => x ++ s) (by decide)

theorem nlNl_merge (s : String) : ")\n" ++ ("\n" ++ s) = ")\n\n" ++ s := by
  rw [← String.append_assoc]
  exact congrArg (fun x => x ++ s) (by decide)

theorem pyJoin_contextParts (rs : List SearchResult) :
    ∀ i : Nat, rs ≠ [] → pyJoin "\n" (contextParts i rs) = entriesText i rs := by
  induction rs with
  | nil => intro i h; exact absurd rfl h
  | cons r rest ih =>
    intro i _
    cases rest with
    | nil =>
      simp [contextParts, pyJoin, entriesText, String.append_assoc, String.append_empty,
            nlType_merge, nlNl_merge]
    | cons r2 rs2 =>
      have h2 := ih (i + 1) (List.cons_ne_nil r2 rs2)
      have hne : contextParts (i + 1) (r2 :: rs2) ≠ [] := by
        cases rs2 <;> simp [contextParts]
      have hunf : contextParts i (r :: r2 :: rs2)
          = (toString i ++ ". " ++ r.content) :: ("   (Type: " ++ r.typ ++ ")") :: ""
              :: contextParts (i + 1) (r2 :: rs2) := rfl
      rw [hunf, pyJoin_cons_ne _ _ _ (by simp), pyJoin_cons_ne _ _ _ (by simp),
          pyJoin_cons_ne _ _ _ hne, h2]
      simp [entriesText, String.append_assoc, String.append_empty,
            nlType_merge, nlNl_merge]

/-! ## Claim theorems -/

/-- C1 (code bug): the specified chat entry point
`chat(user_input, thread_id, user_id)` backed by the Conversation Store
does not exist in the code. `chat` as defined in src/agent.py has no
`user_id` parameter — so the three-argument call src/api.py makes raises a
`TypeError` on every request — the repository's own
`test_chat_function_signature` requires a parameter set the definition
does not have, and the body reads and writes history only through the
in-process LangGraph checkpointer, never through
`chat_store.get_messages` / `chat_store.save_messages`. -/
theorem chat_entry_point_signature_bug :
    ("user_id" ∈ chatParamNames) = false
    ∧ chatParamNames.length < chatEndpointArgs.length
    ∧ ¬ (∀ p ∈ chatTestRequiredParams, p ∈ chatParamNames)
    ∧ ("chat_store.get_messages" ∈ chatHistoryCalls) = false
    ∧ ("chat_store.save_messages" ∈ chatHistoryCalls) = false := by
  decide

/-- C2: both generation nodes return the prior history with exactly two
turns appended — the user turn carrying the current input first, then the
assistant turn carrying the model's response — for every model, prior
history, input and context. -/
theorem generation_appends_two_turns :
    ∀ (llm : String → String) (messages : List AMsg) (user_input context : String),
      (generate_response llm messages user_input context).messages
        = messages ++ [⟨"user", user_input⟩,
                       ⟨"assistant", (generate_response llm messages user_input context).response⟩]
      ∧ (generate_direct llm messages user_input).messages
        = messages ++ [⟨"user", user_input⟩,
                       ⟨"assistant", (generate_direct llm messages user_input).response⟩] := by
  intro llm messages user_input context
  exact ⟨rfl, rfl⟩

/-- C3: the classifier answers `general` for empty/missing input without
calling the model; on non-empty input it makes exactly one completion
call and answers `livestock` precisely when the stripped, lower-cased
model output contains the substring `"livestock"` (stripping edge
whitespace cannot create or destroy an occurrence of a whitespace-free
word, so this is the containment test on the lower-cased output),
answering `general` for every other output. -/
theorem classifier_contract :
    ∀ (llm : String → String) (user_input : String),
      (user_input = "" → classify_query llm user_input = ⟨"general", 0⟩)
      ∧ (user_input ≠ "" →
          (classify_query llm user_input).llmCalls = 1
          ∧ ((classify_query llm user_input).query_type = "livestock"
              ↔ strContains (pyLower (pyStrip (llm (classificationPromptFor user_input))))
                  "livestock" = true)
          ∧ (strContains (pyLower (pyStrip (llm (classificationPromptFor user_input))))
                "livestock" = false →
              (classify_query llm user_input).query_type = "general")) := by
  intro llm user_input
  constructor
  · intro h
    simp [classify_query, h]
  · intro h
    have hb : (user_input == "") = false := by
      simpa using h
    cases hc : strContains (pyLower (pyStrip (llm (classificationPromptFor user_input)))) "livestock" with
    | true => simp [classify_query, hb, hc]
    | false => simp [classify_query, hb, hc]

/-- Witness for `classifier_contract` at a concrete non-empty input and a
model stub whose reply is `" Livestock."`. -/
theorem classifier_contract_witness :
    "are cows livestock?" ≠ ""
    ∧ (classify_query (fun _ => " Livestock.") "are cows livestock?").llmCalls = 1
    ∧ (classify_query (fun _ => " Livestock.") "are cows livestock?").query_type = "livestock" := by
  refine ⟨by decide, ?_, ?_⟩
  · exact ((classifier_contract (fun _ => " Livestock.") "are cows livestock?").2 (by decide)).1
  · exact (((classifier_contract (fun _ => " Livestock.") "are cows livestock?").2
      (by decide)).2.1).mpr (by decide)

/-- C6 counterexample: saving one timestampless turn and reading it back
returns the turn with role and content intact but with NO timestamp —
`get_messages` strips timestamps — so the round trip does not return
turns "with timestamps populated" as claimed. -/
theorem round_trip_returns_no_timestamps :
    get_messages (save_messages [] "u" "t" [⟨"user", "hi", none⟩] "2024-01-01T00:00:00Z") "u" "t"
      = [⟨"user", "hi", none⟩]
    ∧ (get_messages (save_messages [] "u" "t" [⟨"user", "hi", none⟩] "2024-01-01T00:00:00Z")
        "u" "t").all (fun m => m.timestamp.isSome) = false := by
  constructor
  · rfl
  · rfl

/-- C6 (amended): `put` followed by `get` returns the turns with role and
content unchanged and in order, but with the timestamps stripped from the
returned value; the turns as persisted in the store do carry timestamps,
assigned at persistence time when absent. -/
theorem round_trip_roles_contents_preserved :
    ∀ (store : ChatStore) (u t : String) (msgs : List PMsg) (now : String),
      get_messages (save_messages store u t msgs now) u t
        = msgs.map (fun m => ⟨m.role, m.content, none⟩)
      ∧ (findDoc (save_messages store u t msgs now) (_get_doc_id u t)).map
          (fun kv => kv.snd.messages) = some (timestampMessages msgs now)
      ∧ (timestampMessages msgs now).all (fun m => m.timestamp.isSome) = true := by
  intro store u t msgs now
  have hstored : (findDoc (save_messages store u t msgs now) (_get_doc_id u t)).map
      (fun kv => kv.snd.messages) = some (timestampMessages msgs now) := by
    cases hf : findDoc store (_get_doc_id u t) with
    | none =>
      rw [save_messages_of_not_found store u t msgs now hf,
          findDoc_append_of_none store _ _ hf]
      simp [findDoc, List.find?]
    | some kv =>
      rw [save_messages_of_found store u t msgs now kv hf,
          findDoc_map_update store (_get_doc_id u t) (updateThreadDoc msgs now) kv hf]
      simp [updateThreadDoc]
  refine ⟨?_, hstored, ?_⟩
  · simp only [get_messages]
    cases hg : findDoc (save_messages store u t msgs now) (_get_doc_id u t) with
    | none => rw [hg] at hstored; simp at hstored
    | some kv =>
      rw [hg] at hstored
      have hmsgs : kv.snd.messages = timestampMessages msgs now := by
        simpa using hstored
      simp [hmsgs, timestampMessages, List.map_map, Function.comp]
  · simp [timestampMessages, List.all_eq_true]

/-- C9: `delete_thread` returns `true` exactly when the thread document
exists, and afterwards `get_messages` on that thread returns the empty
list (it also does for a nonexistent thread, whose deletion returns
`false` and is an ordinary total-function result, not an error). -/
theorem delete_thread_contract :
    ∀ (store : ChatStore) (u t : String),
      (delete_thread store u t).fst = (findDoc store (_get_doc_id u t)).isSome
      ∧ get_messages (delete_thread store u t).snd u t = [] := by
  intro store u t
  cases hF : findDoc store (_get_doc_id u t) with
  | some kv =>
    refine ⟨by simp [delete_thread, hF], ?_⟩
    simp [delete_thread, hF, get_messages, findDoc_filter_self_none]
  | none =>
    refine ⟨by simp [delete_thread, hF], ?_⟩
    simp [delete_thread, hF, get_messages]

/-- C10: saving over an existing thread document rewrites only the
`messages`, `updated_at` and `message_count` fields; `user_id`,
`thread_id` and `created_at` are carried over unchanged from the stored
document. -/
theorem save_messages_frame :
    ∀ (store : ChatStore) (u t : String) (msgs : List PMsg) (now : String)
      (kv : String × ThreadDoc),
      findDoc store (_get_doc_id u t) = some kv →
      findDoc (save_messages store u t msgs now) (_get_doc_id u t)
        = some (kv.fst, ⟨kv.snd.user_id, kv.snd.thread_id, timestampMessages msgs now,
                         kv.snd.created_at, now, (timestampMessages msgs now).length⟩) := by
  intro store u t msgs now kv hf
  rw [save_messages_of_found store u t msgs now kv hf,
      findDoc_map_update store (_get_doc_id u t) (updateThreadDoc msgs now) kv hf]
  rfl

/-- Witness for `save_messages_frame`: a store holding one thread document
whose `created_at`, `user_id` and `thread_id` survive a save. -/
theorem save_messages_frame_witness :
    findDoc [("u_t", ⟨"u", "t", [], "c0", "c0", 0⟩)] (_get_doc_id "u" "t")
      = some ("u_t", ⟨"u", "t", [], "c0", "c0", 0⟩)
    ∧ findDoc (save_messages [("u_t", ⟨"u", "t", [], "c0", "c0", 0⟩)] "u" "t"
        [⟨"user", "hi", none⟩] "n1") (_get_doc_id "u" "t")
      = some ("u_t", ⟨"u", "t", [⟨"user", "hi", some "n1"⟩], "c0", "n1", 1⟩) := by
  constructor
  · decide
  · exact save_messages_frame [("u_t", ⟨"u", "t", [], "c0", "c0", 0⟩)] "u" "t"
      [⟨"user", "hi", none⟩] "n1" ("u_t", ⟨"u", "t", [], "c0", "c0", 0⟩) (by decide)

/-- C4: a non-forced `index_database` on a non-empty index returns the
existing document count (when the count aggregation succeeds) and makes
no embedding-provider calls; and for any starting state, running
`index_database(force=False)` twice in a row (with documents whose ids
are distinct, per the one-document-per-source-key data model) leaves all
embedding work to the first call — the second call makes zero
embedding-provider calls and returns the same count as the first. -/
theorem rebuild_idempotent :
    ∀ (documents : List IDoc) (store : IndexStore) (countOk : Bool),
      (store ≠ [] →
        (index_database false countOk documents store).embedCalls = 0
        ∧ (countOk = true →
            (index_database false countOk documents store).ret = (store.length : Int)))
      ∧ ((documents.map (fun d => d.id)).Nodup →
          (index_database false true documents
              (index_database false true documents store).store).embedCalls = 0
          ∧ (index_database false true documents
              (index_database false true documents store).store).ret
            = (index_database false true documents store).ret) := by
  intro documents store countOk
  constructor
  · intro hne
    have hempty : store.isEmpty = false := by
      cases store with
      | nil => exact absurd rfl hne
      | cons a l => rfl
    cases countOk with
    | false => constructor <;> simp [index_database, hempty]
    | true =>
      refine ⟨by simp [index_database, hempty], ?_⟩
      intro _
      simp [index_database, hempty]
  · intro hnd
    cases hs : store with
    | cons a l =>
      have hempty : store.isEmpty = false := by rw [hs]; rfl
      rw [← hs]
      constructor <;> simp [index_database, hempty]
    | nil =>
      subst hs
      cases hd : documents with
      | nil => subst hd; simp [index_database]
      | cons d ds =>
        subst hd
        have hlen := foldl_setDoc_length (d :: ds) [] hnd (by intro x _; rfl)
        have hlen' : (List.foldl (fun s d => setDoc s d) (setDoc ([] : IndexStore) d) ds).length
            = ds.length + 1 := by simpa using hlen
        have hne2' : List.foldl (fun s d => setDoc s d) (setDoc ([] : IndexStore) d) ds ≠ [] := by
          intro hnil
          rw [hnil] at hlen'
          simp at hlen'
        constructor
        · simp [index_database, hne2']
        · simp [index_database, hne2', hlen']
          omega

/-- Witness for `rebuild_idempotent`: a one-document index state and a
two-document extraction with distinct ids. -/
theorem rebuild_idempotent_witness :
    [("x", (⟨"x", "cx", "breed"⟩ : IDoc))] ≠ []
    ∧ (index_database false true [⟨"a", "ca", "breed"⟩, ⟨"b", "cb", "species"⟩]
        [("x", ⟨"x", "cx", "breed"⟩)]).embedCalls = 0
    ∧ (index_database false true [⟨"a", "ca", "breed"⟩, ⟨"b", "cb", "species"⟩]
        [("x", ⟨"x", "cx", "breed"⟩)]).ret = 1
    ∧ ([(⟨"a", "ca", "breed"⟩ : IDoc), ⟨"b", "cb", "species"⟩].map (fun d => d.id)).Nodup
    ∧ (index_database false true [⟨"a", "ca", "breed"⟩, ⟨"b", "cb", "species"⟩]
        (index_database false true [⟨"a", "ca", "breed"⟩, ⟨"b", "cb", "species"⟩]
          []).store).embedCalls = 0
    ∧ (index_database false true [⟨"a", "ca", "breed"⟩, ⟨"b", "cb", "species"⟩]
        (index_database false true [⟨"a", "ca", "breed"⟩, ⟨"b", "cb", "species"⟩]
          []).store).ret
      = (index_database false true [⟨"a", "ca", "breed"⟩, ⟨"b", "cb", "species"⟩] []).ret := by
  refine ⟨by decide, ?_, ?_, by decide, ?_, ?_⟩
  · exact ((rebuild_idempotent [⟨"a", "ca", "breed"⟩, ⟨"b", "cb", "species"⟩]
      [("x", ⟨"x", "cx", "breed"⟩)] true).1 (by decide)).1
  · exact ((rebuild_idempotent [⟨"a", "ca", "breed"⟩, ⟨"b", "cb", "species"⟩]
      [("x", ⟨"x", "cx", "breed"⟩)] true).1 (by decide)).2 rfl
  · exact ((rebuild_idempotent [⟨"a", "ca", "breed"⟩, ⟨"b", "cb", "species"⟩]
      [] true).2 (by decide)).1
  · exact ((rebuild_idempotent [⟨"a", "ca", "breed"⟩, ⟨"b", "cb", "species"⟩]
      [] true).2 (by decide)).2

/-- C5: any query whose FROM or JOIN clauses reference a table outside the
allow-list makes `execute` fail with the `PermissionError` naming a
disallowed table, with zero calls to the SQL data source — validation
happens before execution, so no partial execution can occur. -/
theorem allowlist_blocks_execution :
    ∀ {α : Type} (runSql : String → α) (query : String),
      (∃ t ∈ extractTables query, allowedTablesLower.contains t = false) →
      (∃ t, allowedTablesLower.contains t = false
        ∧ (execute runSql query).fst = Except.error ("Access denied to table: " ++ t))
      ∧ (execute runSql query).snd = 0 := by
  intro α runSql query h
  have hsome : ((extractTables query).find?
      (fun t => !(allowedTablesLower.contains t))).isSome = true := by
    rw [List.find?_isSome]
    rcases h with ⟨t, hmem, hfalse⟩
    exact ⟨t, hmem, by simp only [hfalse, Bool.not_false]⟩
  rcases Option.isSome_iff_exists.mp hsome with ⟨t0, ht0⟩
  have hbad : allowedTablesLower.contains t0 = false := by
    have := List.find?_some ht0
    simpa using this
  have hval : _validate_query query = some t0 := ht0
  refine ⟨⟨t0, hbad, ?_⟩, ?_⟩
  · simp [execute, hval]
  · simp [execute, hval]

/-- Witness for `allowlist_blocks_execution`: a query against the table
`users`, which is not on the allow-list. -/
theorem allowlist_blocks_execution_witness :
    (∃ t ∈ extractTables "SELECT * FROM users", allowedTablesLower.contains t = false)
    ∧ (∃ t, allowedTablesLower.contains t = false
        ∧ (execute (fun _ => (0 : Nat)) "SELECT * FROM users").fst
          = Except.error ("Access denied to table: " ++ t))
    ∧ (execute (fun _ => (0 : Nat)) "SELECT * FROM users").snd = 0 := by
  refine ⟨by decide, ?_⟩
  exact allowlist_blocks_execution (fun _ => (0 : Nat)) "SELECT * FROM users" (by decide)

/-- C7: the context builder returns the empty string on empty input with
zero index queries; on non-empty input it makes exactly one `search` call
at the fixed `TOP_K_RESULTS = 10`; an empty result set yields the fixed
non-empty "no relevant information" sentinel, and a non-empty result set
yields the fixed header line followed by the numbered
`"{i}. {content}"` / `"   (Type: {type})"` list. -/
theorem retrieval_context_contract :
    ∀ (search : String → Nat → List SearchResult) (user_input : String),
      (user_input = "" → retrieve_context search user_input = ("", 0))
      ∧ (user_input ≠ "" →
          (retrieve_context search user_input).snd = 1
          ∧ (search user_input TOP_K_RESULTS = [] →
              (retrieve_context search user_input).fst
                = "No relevant information found in the database."
              ∧ (retrieve_context search user_input).fst ≠ "")
          ∧ (search user_input TOP_K_RESULTS ≠ [] →
              (retrieve_context search user_input).fst
                = "Relevant information from the livestock database:\n" ++ "\n"
                  ++ entriesText 1 (search user_input TOP_K_RESULTS))) := by
  intro search user_input
  constructor
  · intro h
    simp [retrieve_context, h]
  · intro h
    have hb : (user_input == "") = false := by simpa using h
    refine ⟨?_, ?_, ?_⟩
    · cases hres : search user_input TOP_K_RESULTS with
      | nil => simp [retrieve_context, get_context_for_query, hb, hres]
      | cons r rs => simp [retrieve_context, get_context_for_query, hb, hres]
    · intro hres
      constructor
      · simp [retrieve_context, get_context_for_query, hb, hres]
      · simp [retrieve_context, get_context_for_query, hb, hres]
    · intro hres
      cases hres2 : search user_input TOP_K_RESULTS with
      | nil => exact absurd hres2 hres
      | cons r rs =>
        have hjoin := pyJoin_contextParts (r :: rs) 1 (List.cons_ne_nil r rs)
        have hcne : contextParts 1 (r :: rs) ≠ [] := by
          cases rs <;> simp [contextParts]
        simp only [retrieve_context, hb, Bool.false_eq_true, if_false,
                   get_context_for_query, hres2, List.isEmpty_cons, if_false]
        rw [pyJoin_cons_ne _ _ _ hcne, hjoin]

/-- Witness for `retrieval_context_contract`: a non-empty query against a
stub index returning one breed document. -/
theorem retrieval_context_contract_witness :
    "cattle" ≠ ""
    ∧ (retrieve_context (fun _ _ => [⟨"Breed: Angus", "breed"⟩]) "cattle").snd = 1
    ∧ (retrieve_context (fun _ _ => [⟨"Breed: Angus", "breed"⟩]) "cattle").fst
      = "Relevant information from the livestock database:\n" ++ "\n"
        ++ entriesText 1 [⟨"Breed: Angus", "breed"⟩] := by
  refine ⟨by decide, ?_, ?_⟩
  · exact ((retrieval_context_contract (fun _ _ => [⟨"Breed: Angus", "breed"⟩]) "cattle").2
      (by decide)).1
  · exact (((retrieval_context_contract (fun _ _ => [⟨"Breed: Angus", "breed"⟩]) "cattle").2
      (by decide)).2.2) (by decide)

/-- C8: the species document builder keeps only the first 20 colors, the
first 20 patterns and the first 15 categories — the formatted content is
unchanged if the inputs are pre-truncated to those lengths, so excess
items are silently dropped — and concretely a species with 25 colors
`color0 … color24` lists `color19` but not `color20`. -/
theorem species_document_truncation :
    (∀ (sp : SpeciesRow) (colors patterns categories : List String),
        _format_species_document sp colors patterns categories
          = _format_species_document sp (colors.take 20) (patterns.take 20) (categories.take 15))
    ∧ strContains (_format_species_document ⟨none, none, none, none, none, none, none⟩
        ((List.range 25).map (fun n => "color" ++ toString n)) [] []) "color19" = true
    ∧ strContains (_format_species_document ⟨none, none, none, none, none, none, none⟩
        ((List.range 25).map (fun n => "color" ++ toString n)) [] []) "color20" = false := by
  refine ⟨?_, by decide, by decide⟩
  intro sp colors patterns categories
  have hc : (colors.take 20).isEmpty = colors.isEmpty := by
    cases colors <;> simp
  have hp : (patterns.take 20).isEmpty = patterns.isEmpty := by
    cases patterns <;> simp
  have hk : (categories.take 15).isEmpty = categories.isEmpty := by
    cases categories <;> simp
  simp [_format_species_document, hc, hp, hk, List.take_take]
